import Mathlib

/-
Shallow embedding of zencastr/gcs-browser-upload, src/UploadStream.js.

The repository ships one source file, `src/UploadStream.js`, containing the
`Upload` class (constructor, uploadChunk, getRemoteResumeIndex, pause,
unpause, waitForUnpause, cancel) and the module-level helpers
`checkResponseStatus` and `safePut`.  The modules it imports
(`./FileMeta`, `./FileProcessor`, `./errors`, `./debug`) are not part of
src/; where a definition below depends on one of them it is modelled from
the spec and says so in its doc comment.

Modelling conventions:
- JS numbers that hold byte counts, statuses and indices are `Nat`
  (they stay in the exact-integer range); the one place the source can
  produce `-1` (the `end` offset of an empty chunk) uses `Int`.
- The axios transport is a stub `tr : Nat → Response`, giving the response
  of the num-th attempt (async-retry numbers attempts from 1).  `safePut`
  either resolves to a response or rethrows an `Error`; a stub that always
  yields a `Response` models the resolving path, which is the one every
  claim quantifies over.
- Thrown JS errors are `Except UploadError`; the per-call side effects of
  `uploadChunk` (checksum fold, PUT requests, `meta.addChecksum`,
  `opts.onChunkUpload`) are recorded in order in an `Action` log.
  The `onProgress` callback (fed from axios `onUploadProgress` internals)
  is not observable at this level and is not logged.
-/

set_option autoImplicit false

namespace Gcs

/-- An HTTP response as the classifier and the resume probe see it:
a `status` and (for the probe) the lower-cased `range` response header. -/
structure Response where
  status : Nat
  rangeHeader : Option String
deriving DecidableEq, Repr

/-- The error catalogue of `src/errors` (not under src/; constructor
arguments follow the call sites in `UploadStream.js` and the spec's error
surface).  `unknownResponse` carries the response object, as
`UnknownResponseError(res)` does.  Messages elide the quote characters
around option names. -/
inductive UploadError where
  | fileAlreadyUploaded (id url : String)
  | urlNotFound (url : String)
  | uploadFailed (status : Nat)
  | uploadUnableToRecover
  | unknownResponse (res : Response)
  | missingOptions (msg : String)
  | uploadIncomplete
  | invalidChunkSize (size : Nat)
deriving DecidableEq, Repr

/-- `MIN_CHUNK_SIZE` (line 19). -/
def MIN_CHUNK_SIZE : Nat := 262144

/-- `checkResponseStatus(res, opts, allowed)` (lines 160-186).  The JS
`allowed.indexOf(status) > -1` test is list membership; the `switch` is the
equivalent chain of equality tests, in source order. -/
def checkResponseStatus (res : Response) (optId optUrl : String)
    (allowed : List Nat) : Except UploadError Unit :=
  if res.status ∈ allowed then
    .ok ()
  else if res.status = 308 then
    .error .uploadIncomplete
  else if res.status = 201 ∨ res.status = 200 then
    .error (.fileAlreadyUploaded optId optUrl)
  else if res.status = 404 then
    .error (.urlNotFound optUrl)
  else if res.status = 500 ∨ res.status = 502 ∨ res.status = 503 ∨ res.status = 504 then
    .error (.uploadFailed res.status)
  else
    .error (.unknownResponse res)

/-- The spec's fixed classification table (§4.3), stated independently of
the source so the two can be compared for statuses outside the allow-list. -/
def specClassifyError (res : Response) (optId optUrl : String) : UploadError :=
  if res.status = 308 then .uploadIncomplete
  else if res.status = 200 ∨ res.status = 201 then .fileAlreadyUploaded optId optUrl
  else if res.status = 404 then .urlNotFound optUrl
  else if res.status = 500 ∨ res.status = 502 ∨ res.status = 503 ∨ res.status = 504 then
    .uploadFailed res.status
  else .unknownResponse res

/-- Constructor arguments (lines 29-40).  A JS options object may carry any
keys; `{...args}` spreads them all into `opts`, but only the keys below are
ever read by the class — plus `backoffDelayMillis`, listed here because the
spec names it: it can be passed and is spread into `opts`, but no line of
the source reads it.  `storage`, `onChunkUpload` and `onProgress` are
handles/callbacks and are modelled by the explicit store and the action
log instead of data fields. -/
structure Args where
  chunkSize : Option Nat
  contentType : Option String
  id : Option String
  url : Option String
  backoffMillis : Option Nat
  backoffRetryLimit : Option Nat
  backoffDelayMillis : Option Nat
deriving DecidableEq, Repr

/-- The resolved `opts` of a constructed instance (defaults applied,
lines 29-40). -/
structure Opts where
  chunkSize : Nat
  contentType : String
  id : String
  url : String
  backoffMillis : Nat
  backoffRetryLimit : Nat
deriving DecidableEq, Repr

/-- A checksum value.  Modelled from the spec: `getChecksum` of
`src/FileProcessor` is not under src/; the spec's checksum utility contract
folds the chunk bytes into the accumulator state and returns this chunk's
checksum together with the new state.  The digest is abstracted as the
byte sequence consumed so far (an injective stand-in for the MD5 state). -/
abbrev Checksum := List Nat

/-- Instance state of `Upload` (lines 24-62): the pause flag, the pending
unpause continuations (opaque waiter ids, in registration order), the
incremental checksum accumulator `spark` (bytes consumed so far), the
resolved options, and `meta`, the persisted checksum store rows for this
session's `id`.  Modelled from the spec: `FileMeta` is not under src/; per
the persistence contract it is the per-`id` mapping from chunk index to
checksum, append-only during a session and cleared on cancellation. -/
structure Upload where
  paused : Bool
  unpauseHandlers : List Nat
  spark : List Nat
  opts : Opts
  meta : List (Nat × Checksum)
deriving DecidableEq, Repr

/-- JS falsiness of an optional string option (`!opts.id`, `!opts.url`):
absent (`null`/`undefined`) or empty. -/
def strFalsy : Option String → Bool
  | none => true
  | some s => s == ""

/-- The constructor (lines 24-62): applies defaults, validates the chunk
size, then `id`, then `url`, and otherwise returns the initial instance
state (paused false, no waiters, fresh accumulator, fresh store). -/
def buildUpload (args : Args) (allowSmallChunks : Bool) : Except UploadError Upload :=
  let chunkSize := args.chunkSize.getD MIN_CHUNK_SIZE
  if (chunkSize % MIN_CHUNK_SIZE ≠ 0 ∨ chunkSize = 0) ∧ allowSmallChunks = false then
    .error (.invalidChunkSize chunkSize)
  else if strFalsy args.id then
    .error (.missingOptions "The id option is required")
  else if strFalsy args.url then
    .error (.missingOptions "The url option is required")
  else
    .ok
      { paused := false
        unpauseHandlers := []
        spark := []
        opts :=
          { chunkSize := chunkSize
            contentType := args.contentType.getD "text/plain"
            id := args.id.getD ""
            url := args.url.getD ""
            backoffMillis := args.backoffMillis.getD 1000
            backoffRetryLimit := args.backoffRetryLimit.getD 5 }
        meta := [] }

/-- `getChecksum(spark, chunk)` of `src/FileProcessor`.  Modelled from the
spec: the checksum utility contract is
`computeChunkChecksum(accumulatorState, chunkBytes) → (checksumString,
newAccumulatorState)`, folding the chunk bytes into the accumulator.  The
returned digest is abstracted as the accumulator contents after the fold. -/
def getChecksum (spark : List Nat) (chunk : List Nat) : Checksum × List Nat :=
  (spark ++ chunk, spark ++ chunk)

/-- One PUT request as handed to the transport: target url, body bytes
(`none` for the zero-byte resume probe), and the `Content-Type` and
`Content-Range` headers (the probe sends no `Content-Type`). -/
structure Request where
  url : String
  body : Option (List Nat)
  contentType : Option String
  contentRange : String
deriving DecidableEq, Repr

/-- The argument of `opts.onChunkUpload` (lines 111-115). -/
structure ChunkProgress where
  uploadedBytes : Nat
  chunkIndex : Nat
  chunkLength : Nat
deriving DecidableEq, Repr

/-- Observable per-call effects of `uploadChunk`, in program order. -/
inductive Action where
  | fold (bytes : List Nat)
  | request (r : Request)
  | persist (index : Nat) (checksum : Checksum)
  | chunkUpload (p : ChunkProgress)
deriving DecidableEq, Repr

/-- The `Content-Range` header value of a chunk PUT (line 77); `endOff` is
`Int` because an empty chunk at index 0 yields `bytes 0--1/*`. -/
def contentRangeValue (start : Nat) (endOff : Int) : String :=
  s!"bytes {start}-{endOff}/*"

/-- The PUT request `uploadChunk` issues on every attempt (lines 75-78 and
91): same url, body and headers each time. -/
def chunkRequest (u : Upload) (index : Nat) (chunk : List Nat) : Request :=
  { url := u.opts.url
    body := some chunk
    contentType := some u.opts.contentType
    contentRange :=
      contentRangeValue (index * u.opts.chunkSize)
        ((index * u.opts.chunkSize : Int) + chunk.length - 1) }

/-- The async-retry loop (line 90-103): run the attempt numbered `num`; on
success stop; on a thrown error, if `left` retries remain wait `minTimeout`
and go again, else rethrow.  Returns the number of attempts made and the
final outcome.  The source never calls `bail`, so that path is absent. -/
def retryGo (attempt : Nat → Except UploadError Unit) :
    Nat → Nat → Nat × Except UploadError Unit
  | left, num =>
    match attempt num with
    | .ok _ => (num, .ok ())
    | .error e =>
      match left with
      | 0 => (num, .error e)
      | l + 1 => retryGo attempt l (num + 1)

/-- `retry(fn, {retries, minTimeout})`: the first attempt is numbered 1 and
up to `retries` further attempts follow. -/
def retryRun (retries : Nat) (attempt : Nat → Except UploadError Unit) :
    Nat × Except UploadError Unit :=
  retryGo attempt retries 1

/-- Result of one `uploadChunk` call past the pause gate: the new instance
state, the attempt count, the `{retries, minTimeout}` options handed to the
retry wrapper (line 103), the ordered action log, and the settled value. -/
structure UploadChunkOutcome where
  state : Upload
  attempts : Nat
  retries : Nat
  minTimeout : Nat
  log : List Action
  result : Except UploadError Unit
deriving Repr

/-- Lines 104-116, parameterised by the retry loop's outcome `r`: a thrown
error of any kind is caught and rethrown as `UploadUnableToRecoverError`
(the accumulator keeps the folded bytes, the store is untouched); on
success the checksum is persisted (`meta.addChecksum`, modelled from the
spec's persistence contract as appending the row for `index`) and then
`onChunkUpload` fires with `uploadedBytes = end + 1 = start + length`. -/
def uploadChunkFinish (u : Upload) (index : Nat) (chunk : List Nat)
    (r : Nat × Except UploadError Unit) : UploadChunkOutcome :=
  let checksum := (getChecksum u.spark chunk).1
  let sparkNew := (getChecksum u.spark chunk).2
  match r.2 with
  | .error _ =>
    { state := { u with spark := sparkNew }
      attempts := r.1
      retries := u.opts.backoffRetryLimit
      minTimeout := u.opts.backoffMillis
      log := .fold chunk :: List.replicate r.1 (.request (chunkRequest u index chunk))
      result := .error .uploadUnableToRecover }
  | .ok _ =>
    { state := { u with spark := sparkNew, meta := u.meta ++ [(index, checksum)] }
      attempts := r.1
      retries := u.opts.backoffRetryLimit
      minTimeout := u.opts.backoffMillis
      log := .fold chunk :: List.replicate r.1 (.request (chunkRequest u index chunk))
        ++ [.persist index checksum,
            .chunkUpload
              { uploadedBytes := index * u.opts.chunkSize + chunk.length
                chunkIndex := index
                chunkLength := chunk.length }]
      result := .ok () }

/-- `uploadChunk(index, chunk)` (lines 64-116) past the pause gate, against
a transport stub `tr` giving the response of each numbered attempt: fold
the chunk into the accumulator, then retry the PUT-and-classify attempt
(allow-list `[200, 201, 308]`, `retries = opts.backoffRetryLimit`,
`minTimeout = opts.backoffMillis`), then finish per `uploadChunkFinish`. -/
def uploadChunkRun (u : Upload) (index : Nat) (chunk : List Nat)
    (tr : Nat → Response) : UploadChunkOutcome :=
  uploadChunkFinish u index chunk
    (retryRun u.opts.backoffRetryLimit
      (fun num => checkResponseStatus (tr num) u.opts.id u.opts.url [200, 201, 308]))

/-- `pause()` (lines 136-139): sets the flag, touches nothing else. -/
def pause (u : Upload) : Upload :=
  { u with paused := true }

/-- `unpause()` (lines 141-146): clears the flag, fires every pending
handler once in list order, then empties the list.  The second component
is the sequence of waiter ids released by this call. -/
def unpause (u : Upload) : Upload × List Nat :=
  ({ u with paused := false, unpauseHandlers := [] }, u.unpauseHandlers)

/-- Result of invoking `uploadChunk` at its entry (lines 64-71): either the
call suspended at the pause gate (promise pending, `resolved = none`,
nothing logged) or it ran to settlement. -/
structure CallOutcome where
  state : Upload
  log : List Action
  resolved : Option (Except UploadError Unit)
deriving Repr

/-- An `uploadChunk(index, chunk)` invocation including the pause gate
(lines 69-71): while paused it registers a waiter (`waitForUnpause`,
lines 148-152, modelled by appending the opaque id `wid`) before touching
the accumulator or the transport; otherwise it runs the body. -/
def uploadChunkCall (u : Upload) (wid : Nat) (index : Nat) (chunk : List Nat)
    (tr : Nat → Response) : CallOutcome :=
  if u.paused then
    { state := { u with unpauseHandlers := u.unpauseHandlers ++ [wid] }
      log := []
      resolved := none }
  else
    let o := uploadChunkRun u index chunk tr
    { state := o.state, log := o.log, resolved := some o.result }

/-- `cancel()` (lines 154-157): `meta.reset()`.  Modelled from the spec:
`FileMeta.reset` is not under src/; per the persistence contract
`clear(id)` it removes every persisted checksum row for this session's
`id`.  Nothing else is touched. -/
def cancel (u : Upload) : Upload :=
  { u with meta := [] }

/-- The zero-byte probe request of `getRemoteResumeIndex` (lines 120-124). -/
def probeRequest (u : Upload) : Request :=
  { url := u.opts.url, body := none, contentType := none, contentRange := "bytes */*" }

/-- Digit run to its numeric value (`parseInt` on an all-digit string). -/
def digitsToNat (ds : List Char) : Nat :=
  ds.foldl (fun acc c => acc * 10 + (c.toNat - 48)) 0

/-- The `header.match(/(\d+?)-(\d+?)$/)` capture `range[2]` (line 131): the
maximal trailing digit run of the string, provided it is non-empty and is
immediately preceded by a `-` that is itself immediately preceded by a
digit; otherwise the regex does not match (`range` is `null`). -/
def parseTrailingRange (s : String) : Option Nat :=
  let rev := s.data.reverse
  let ds := rev.takeWhile Char.isDigit
  let rest := rev.dropWhile Char.isDigit
  match ds, rest with
  | [], _ => none
  | _, [] => none
  | _ :: _, c :: rest2 =>
    if c = '-' ∧ (rest2.headD ' ').isDigit then some (digitsToNat ds.reverse)
    else none

/-- How a `getRemoteResumeIndex` call settles: a resume index, a thrown
`UploadError`, or a JS runtime `TypeError` (`range` header missing on a
308, or `range.match` returning `null` and `range[2]` being read) — the
path the spec leaves as undefined behaviour. -/
inductive ResumeResult where
  | ok (index : Nat)
  | err (e : UploadError)
  | jsError
deriving DecidableEq, Repr

/-- Result of `getRemoteResumeIndex`: the probe request it issued and how
it settled. -/
structure ResumeOutcome where
  request : Request
  result : ResumeResult
deriving DecidableEq, Repr

/-- `getRemoteResumeIndex()` (lines 118-134) against the stub response
`res`: PUT `null` with `Content-Range: bytes */*`, require status 308 via
the classifier (allow-list `[308]`), read the `range` header, take the
trailing `<start>-<end>` capture, and return
`Math.floor((end + 1) / chunkSize)` (exact division on `Nat`). -/
def getRemoteResumeIndex (u : Upload) (res : Response) : ResumeOutcome :=
  match checkResponseStatus res u.opts.id u.opts.url [308] with
  | .error e => { request := probeRequest u, result := .err e }
  | .ok _ =>
    match res.rangeHeader with
    | none => { request := probeRequest u, result := .jsError }
    | some h =>
      match parseTrailingRange h with
      | none => { request := probeRequest u, result := .jsError }
      | some endOff =>
        { request := probeRequest u
          result := .ok ((endOff + 1) / u.opts.chunkSize) }

/-- Arguments with every key absent. -/
def emptyArgs : Args :=
  { chunkSize := none
    contentType := none
    id := none
    url := none
    backoffMillis := none
    backoffRetryLimit := none
    backoffDelayMillis := none }

/-- The spec's minimal valid configuration. -/
def minimalArgs : Args :=
  { emptyArgs with id := some "x", url := some "http://h" }

/-- A sample constructed instance (what `buildUpload minimalArgs false`
yields), used to instantiate witnesses. -/
def sampleUpload : Upload :=
  { paused := false
    unpauseHandlers := []
    spark := []
    opts :=
      { chunkSize := 262144
        contentType := "text/plain"
        id := "x"
        url := "http://h"
        backoffMillis := 1000
        backoffRetryLimit := 5 }
    meta := [] }

/-- C3: the classifier succeeds exactly when the status is in the caller's
allow-list; any other status raises the fixed mapping of §4.3 (308 →
UploadIncompleteError, 200/201 → FileAlreadyUploadedError, 404 →
UrlNotFoundError, 500/502/503/504 → UploadFailedError(status), otherwise
UnknownResponseError(response)); `classify(200, [200,201,308])` succeeds
while `classify(200, [])` raises FileAlreadyUploadedError. -/
theorem checkResponseStatus_spec (res : Response) (optId optUrl : String)
    (allowed : List Nat) :
    (checkResponseStatus res optId optUrl allowed = .ok () ↔ res.status ∈ allowed)
    ∧ (res.status ∉ allowed →
        checkResponseStatus res optId optUrl allowed
          = .error (specClassifyError res optId optUrl))
    ∧ checkResponseStatus ⟨200, none⟩ optId optUrl [200, 201, 308] = .ok ()
    ∧ checkResponseStatus ⟨200, none⟩ optId optUrl []
        = .error (.fileAlreadyUploaded optId optUrl) := by
  refine ⟨?_, ?_, rfl, rfl⟩
  · by_cases hmem : res.status ∈ allowed
    · simp [checkResponseStatus, hmem]
    · constructor
      · intro h
        exfalso
        simp only [checkResponseStatus, if_neg hmem] at h
        split_ifs at h
      · intro h
        exact absurd h hmem
  · intro hmem
    simp only [checkResponseStatus, specClassifyError, if_neg hmem]
    split_ifs <;> first | rfl | tauto

/-- Closed instance of `checkResponseStatus_spec`: status 404 with an empty
allow-list raises UrlNotFoundError. -/
theorem checkResponseStatus_spec_witness :
    checkResponseStatus ⟨404, none⟩ "x" "http://h" []
      = .error (.urlNotFound "http://h") := by
  have h := (checkResponseStatus_spec ⟨404, none⟩ "x" "http://h" []).2.1 (by decide)
  simpa [specClassifyError] using h

/-- Arguments whose chunk size is not a multiple of 262144. -/
def argsBadChunk : Args :=
  { minimalArgs with chunkSize := some 100 }

/-- Arguments missing `id`. -/
def argsNoId : Args :=
  { emptyArgs with url := some "http://h" }

/-- Arguments missing `url`. -/
def argsNoUrl : Args :=
  { emptyArgs with id := some "x" }

/-- C4: construction rejects a chunk size that is zero or not a multiple of
262144 when the small-chunks override is unset (InvalidChunkSizeError);
otherwise a missing `id`, then a missing `url`, raise MissingOptionsError;
and the minimal config `{id:"x", url:"http://h"}` constructs with
`chunkSize` defaulted to 262144. -/
theorem construction_validation (args : Args) (allow : Bool) :
    (args.chunkSize.getD MIN_CHUNK_SIZE % MIN_CHUNK_SIZE ≠ 0
        ∨ args.chunkSize.getD MIN_CHUNK_SIZE = 0 →
      allow = false →
      buildUpload args allow
        = .error (.invalidChunkSize (args.chunkSize.getD MIN_CHUNK_SIZE)))
    ∧ (¬((args.chunkSize.getD MIN_CHUNK_SIZE % MIN_CHUNK_SIZE ≠ 0
          ∨ args.chunkSize.getD MIN_CHUNK_SIZE = 0) ∧ allow = false) →
      strFalsy args.id = true →
      buildUpload args allow = .error (.missingOptions "The id option is required"))
    ∧ (¬((args.chunkSize.getD MIN_CHUNK_SIZE % MIN_CHUNK_SIZE ≠ 0
          ∨ args.chunkSize.getD MIN_CHUNK_SIZE = 0) ∧ allow = false) →
      strFalsy args.id = false →
      strFalsy args.url = true →
      buildUpload args allow = .error (.missingOptions "The url option is required"))
    ∧ (buildUpload minimalArgs false).map (fun u => u.opts.chunkSize)
        = .ok MIN_CHUNK_SIZE := by
  refine ⟨?_, ?_, ?_, rfl⟩
  · intro h1 h2
    simp [buildUpload, h1, h2]
  · intro h1 h2
    simp [buildUpload, h1, h2]
  · intro h1 h2 h3
    simp [buildUpload, h1, h2, h3]

/-- Closed instances of `construction_validation`: a 100-byte chunk size is
rejected, a missing `id` and a missing `url` are rejected in turn. -/
theorem construction_validation_witness :
    buildUpload argsBadChunk false = .error (.invalidChunkSize 100)
    ∧ buildUpload argsNoId false = .error (.missingOptions "The id option is required")
    ∧ buildUpload argsNoUrl false = .error (.missingOptions "The url option is required") := by
  refine ⟨?_, ?_, ?_⟩
  · exact (construction_validation argsBadChunk false).1 (Or.inl (by decide)) rfl
  · exact (construction_validation argsNoId false).2.1 (by decide) (by decide)
  · exact (construction_validation argsNoUrl false).2.2.1 (by decide) (by decide) (by decide)

/-- When every attempt throws, the retry loop performs one attempt per unit
of budget plus the initial one and ends in the last thrown error. -/
theorem retryGo_allFail (attempt : Nat → Except UploadError Unit)
    (hf : ∀ n, ∃ e, attempt n = .error e) :
    ∀ left num, ∃ e, retryGo attempt left num = (num + left, .error e) := by
  intro left
  induction left with
  | zero =>
    intro num
    obtain ⟨e, he⟩ := hf num
    exact ⟨e, by simp [retryGo, he]⟩
  | succ l ih =>
    intro num
    obtain ⟨e, he⟩ := hf num
    obtain ⟨e2, he2⟩ := ih (num + 1)
    refine ⟨e2, ?_⟩
    rw [retryGo, he]
    have hnum : num + 1 + l = num + (l + 1) := by omega
    simp [he2, hnum]

/-- When the first attempt succeeds, the retry loop stops after it. -/
theorem retryGo_firstOk (attempt : Nat → Except UploadError Unit)
    (h : attempt 1 = .ok ()) (left : Nat) :
    retryGo attempt left 1 = (1, .ok ()) := by
  rw [retryGo, h]

/-- The accumulator always holds the folded bytes after `uploadChunkFinish`,
whichever way the retry loop went. -/
theorem uploadChunkFinish_spark (u : Upload) (index : Nat) (chunk : List Nat)
    (r : Nat × Except UploadError Unit) :
    (uploadChunkFinish u index chunk r).state.spark = u.spark ++ chunk := by
  rcases r with ⟨n, res⟩
  cases res <;> simp [uploadChunkFinish, getChecksum]

/-- `uploadChunkFinish` settles with `.ok ()` or with
`UploadUnableToRecoverError` and nothing else. -/
theorem uploadChunkFinish_result (u : Upload) (index : Nat) (chunk : List Nat)
    (r : Nat × Except UploadError Unit) :
    (uploadChunkFinish u index chunk r).result = .ok ()
    ∨ (uploadChunkFinish u index chunk r).result = .error .uploadUnableToRecover := by
  rcases r with ⟨n, res⟩
  cases res <;> simp [uploadChunkFinish]

/-- C1: when every attempt fails classification, `uploadChunk` makes
exactly `backoffRetryLimit + 1` attempts and rejects with
`UploadUnableToRecoverError`; and past the pause gate that is the only
error kind it can reject with — every classifier-level error is absorbed
by the retry loop and rethrown uniformly. -/
theorem uploadChunk_retry_exhaustion (u : Upload) (index : Nat) (chunk : List Nat)
    (tr : Nat → Response) :
    ((∀ num, ∃ e, checkResponseStatus (tr num) u.opts.id u.opts.url [200, 201, 308]
        = .error e) →
      (uploadChunkRun u index chunk tr).attempts = u.opts.backoffRetryLimit + 1
      ∧ (uploadChunkRun u index chunk tr).result = .error .uploadUnableToRecover)
    ∧ ∀ e, (uploadChunkRun u index chunk tr).result = .error e →
        e = .uploadUnableToRecover := by
  constructor
  · intro hf
    obtain ⟨e, he⟩ := retryGo_allFail _ hf u.opts.backoffRetryLimit 1
    unfold uploadChunkRun retryRun
    rw [he]
    constructor
    · simp [uploadChunkFinish]
      omega
    · simp [uploadChunkFinish]
  · intro e he
    rcases uploadChunkFinish_result u index chunk
        (retryRun u.opts.backoffRetryLimit
          (fun num => checkResponseStatus (tr num) u.opts.id u.opts.url [200, 201, 308]))
      with hok | herr
    · rw [uploadChunkRun, hok] at he
      cases he
    · rw [uploadChunkRun, herr] at he
      cases he
      rfl

/-- Closed instance of `uploadChunk_retry_exhaustion`: a transport that
always answers 500 gives six attempts (budget 5) and the uniform error. -/
theorem uploadChunk_retry_exhaustion_witness :
    (uploadChunkRun sampleUpload 0 [1, 2, 3] (fun _ => ⟨500, none⟩)).attempts = 6
    ∧ (uploadChunkRun sampleUpload 0 [1, 2, 3] (fun _ => ⟨500, none⟩)).result
        = .error .uploadUnableToRecover := by
  have h := (uploadChunk_retry_exhaustion sampleUpload 0 [1, 2, 3]
      (fun _ => ⟨500, none⟩)).1 (fun num => ⟨.uploadFailed 500, rfl⟩)
  simpa [sampleUpload] using h

/-- The accumulator of an `uploadChunk` call always ends up with the chunk
folded in, whatever the transport did. -/
theorem uploadChunkRun_spark (u : Upload) (index : Nat) (chunk : List Nat)
    (tr : Nat → Response) :
    (uploadChunkRun u index chunk tr).state.spark = u.spark ++ chunk := by
  unfold uploadChunkRun
  exact uploadChunkFinish_spark u index chunk _

/-- C6: an `uploadChunk` call whose attempt succeeds classification first
persists the `(index, checksum)` row into the store and then fires
`onChunkUpload` with `uploadedBytes = index * chunkSize + chunk.length`
(the range end plus one), the chunk index, and the chunk length; for
index 0 the reported `uploadedBytes` is exactly the chunk's length. -/
theorem uploadChunk_success_effects (u : Upload) (index : Nat) (chunk : List Nat)
    (tr : Nat → Response)
    (h : (uploadChunkRun u index chunk tr).result = .ok ()) :
    (uploadChunkRun u index chunk tr).state.meta
        = u.meta ++ [(index, u.spark ++ chunk)]
    ∧ (uploadChunkRun u index chunk tr).log
        = .fold chunk
            :: List.replicate (uploadChunkRun u index chunk tr).attempts
                (.request (chunkRequest u index chunk))
            ++ [.persist index (u.spark ++ chunk),
                .chunkUpload
                  { uploadedBytes := index * u.opts.chunkSize + chunk.length
                    chunkIndex := index
                    chunkLength := chunk.length }]
    ∧ (index = 0 →
        Action.chunkUpload
            { uploadedBytes := chunk.length, chunkIndex := 0, chunkLength := chunk.length }
          ∈ (uploadChunkRun u index chunk tr).log) := by
  rcases hr : retryRun u.opts.backoffRetryLimit
      (fun num => checkResponseStatus (tr num) u.opts.id u.opts.url [200, 201, 308])
    with ⟨n, res⟩
  have key : uploadChunkRun u index chunk tr = uploadChunkFinish u index chunk (n, res) := by
    unfold uploadChunkRun
    rw [hr]
  rw [key] at h ⊢
  cases res with
  | error e => simp [uploadChunkFinish] at h
  | ok _ =>
    refine ⟨by simp [uploadChunkFinish, getChecksum], by simp [uploadChunkFinish, getChecksum], ?_⟩
    intro hidx
    subst hidx
    simp [uploadChunkFinish, getChecksum]

/-- Closed instance of `uploadChunk_success_effects`: a 200 response for
chunk 0 persists the row and reports `uploadedBytes` = chunk length. -/
theorem uploadChunk_success_effects_witness :
    (uploadChunkRun sampleUpload 0 [1, 2, 3] (fun _ => ⟨200, none⟩)).state.meta
        = [(0, [1, 2, 3])]
    ∧ Action.chunkUpload { uploadedBytes := 3, chunkIndex := 0, chunkLength := 3 }
        ∈ (uploadChunkRun sampleUpload 0 [1, 2, 3] (fun _ => ⟨200, none⟩)).log := by
  have h := uploadChunk_success_effects sampleUpload 0 [1, 2, 3]
    (fun _ => ⟨200, none⟩) rfl
  exact ⟨by simpa [sampleUpload] using h.1, by simpa using h.2.2 rfl⟩

/-- C7: the allow-list `uploadChunk` hands the classifier is
`[200, 201, 308]`, so a 308 response settles the call as a fully
successful upload — one attempt, checksum persisted, `onChunkUpload`
fired — and no `uploadChunk` call ever rejects with
`UploadIncompleteError`. -/
theorem uploadChunk_allows_308 (u : Upload) (index : Nat) (chunk : List Nat)
    (tr : Nat → Response) (h : (tr 1).status = 308) :
    (uploadChunkRun u index chunk tr).result = .ok ()
    ∧ (uploadChunkRun u index chunk tr).state.meta
        = u.meta ++ [(index, u.spark ++ chunk)]
    ∧ (uploadChunkRun u index chunk tr).log
        = [.fold chunk, .request (chunkRequest u index chunk),
           .persist index (u.spark ++ chunk),
           .chunkUpload
             { uploadedBytes := index * u.opts.chunkSize + chunk.length
               chunkIndex := index
               chunkLength := chunk.length }]
    ∧ ∀ tr2 : Nat → Response,
        (uploadChunkRun u index chunk tr2).result ≠ .error .uploadIncomplete := by
  have hok : checkResponseStatus (tr 1) u.opts.id u.opts.url [200, 201, 308] = .ok () := by
    simp [checkResponseStatus, h]
  have hr : retryRun u.opts.backoffRetryLimit
      (fun num => checkResponseStatus (tr num) u.opts.id u.opts.url [200, 201, 308])
      = (1, .ok ()) :=
    retryGo_firstOk _ hok _
  refine ⟨?_, ?_, ?_, ?_⟩
  · unfold uploadChunkRun
    rw [hr]
    simp [uploadChunkFinish]
  · unfold uploadChunkRun
    rw [hr]
    simp [uploadChunkFinish, getChecksum]
  · unfold uploadChunkRun
    rw [hr]
    simp [uploadChunkFinish, getChecksum]
  · intro tr2 hbad
    rcases uploadChunkFinish_result u index chunk
        (retryRun u.opts.backoffRetryLimit
          (fun num => checkResponseStatus (tr2 num) u.opts.id u.opts.url [200, 201, 308]))
      with hok2 | herr2
    · rw [uploadChunkRun, hok2] at hbad
      cases hbad
    · rw [uploadChunkRun, herr2] at hbad
      cases hbad

/-- Closed instance of `uploadChunk_allows_308`. -/
theorem uploadChunk_allows_308_witness :
    (uploadChunkRun sampleUpload 0 [9] (fun _ => ⟨308, none⟩)).result = .ok ()
    ∧ (uploadChunkRun sampleUpload 0 [9] (fun _ => ⟨308, none⟩)).state.meta
        = [(0, [9])] := by
  have h := uploadChunk_allows_308 sampleUpload 0 [9] (fun _ => ⟨308, none⟩) rfl
  exact ⟨h.1, by simpa [sampleUpload] using h.2.1⟩

/-- C10: the chunk's bytes are folded into the accumulator ahead of every
transport attempt (the fold opens the action log), the fold is kept even
when the call rejects with `UploadUnableToRecoverError`, and re-invoking
`uploadChunk` for the same index folds the bytes a second time. -/
theorem checksum_fold_irrevocable (u : Upload) (index : Nat) (chunk : List Nat)
    (tr : Nat → Response) :
    (uploadChunkRun u index chunk tr).state.spark = u.spark ++ chunk
    ∧ (uploadChunkRun u index chunk tr).log.head? = some (.fold chunk)
    ∧ ((uploadChunkRun u index chunk tr).result = .error .uploadUnableToRecover →
        (uploadChunkRun u index chunk tr).state.spark = u.spark ++ chunk)
    ∧ ∀ tr2 : Nat → Response,
        (uploadChunkRun (uploadChunkRun u index chunk tr).state index chunk tr2).state.spark
          = (u.spark ++ chunk) ++ chunk := by
  refine ⟨uploadChunkRun_spark u index chunk tr, ?_, fun _ => uploadChunkRun_spark u index chunk tr, ?_⟩
  · unfold uploadChunkRun
    rcases hr : retryRun u.opts.backoffRetryLimit
        (fun num => checkResponseStatus (tr num) u.opts.id u.opts.url [200, 201, 308])
      with ⟨n, res⟩
    cases res <;> simp [uploadChunkFinish]
  · intro tr2
    rw [uploadChunkRun_spark, uploadChunkRun_spark]

/-- Closed instance of `checksum_fold_irrevocable`: after exhausting
retries against a 500-transport the accumulator keeps the folded bytes. -/
theorem checksum_fold_irrevocable_witness :
    (uploadChunkRun sampleUpload 0 [1, 2, 3] (fun _ => ⟨500, none⟩)).state.spark
      = [1, 2, 3] := by
  have h := (checksum_fold_irrevocable sampleUpload 0 [1, 2, 3]
    (fun _ => ⟨500, none⟩)).2.2.1 rfl
  simpa [sampleUpload] using h

/-- The resume probe always issues the same request, however it settles. -/
theorem getRemoteResumeIndex_request (u : Upload) (res : Response) :
    (getRemoteResumeIndex u res).request = probeRequest u := by
  unfold getRemoteResumeIndex
  split
  · rfl
  · split
    · rfl
    · split
      · rfl
      · rfl

/-- C2: the resume probe is a zero-byte PUT with `Content-Range: bytes */*`;
on a 308 whose `Range` header ends in `<start>-<end>` it returns
`floor((end + 1) / chunkSize)`, and on any other status it fails with the
classifier's error for that status (allow-list `[308]`). -/
theorem getRemoteResumeIndex_spec (u : Upload) (res : Response)
    (_hpos : 0 < u.opts.chunkSize) :
    (getRemoteResumeIndex u res).request.body = none
    ∧ (getRemoteResumeIndex u res).request.contentRange = "bytes */*"
    ∧ (res.status = 308 → ∀ hdr endOff, res.rangeHeader = some hdr →
        parseTrailingRange hdr = some endOff →
        (getRemoteResumeIndex u res).result = .ok ((endOff + 1) / u.opts.chunkSize))
    ∧ (res.status ≠ 308 → ∀ e,
        checkResponseStatus res u.opts.id u.opts.url [308] = .error e →
        (getRemoteResumeIndex u res).result = .err e) := by
  refine ⟨?_, ?_, ?_, ?_⟩
  · rw [getRemoteResumeIndex_request]
    rfl
  · rw [getRemoteResumeIndex_request]
    rfl
  · intro h308 hdr endOff hh hp
    have hc : checkResponseStatus res u.opts.id u.opts.url [308] = .ok () := by
      simp [checkResponseStatus, h308]
    simp [getRemoteResumeIndex, hc, hh, hp]
  · intro hne e he
    simp [getRemoteResumeIndex, he]

/-- Closed instance of `getRemoteResumeIndex_spec`: status 308 with
`Range: bytes=0-524287` and chunk size 262144 resumes at index 2. -/
theorem getRemoteResumeIndex_spec_witness :
    (getRemoteResumeIndex sampleUpload ⟨308, some "bytes=0-524287"⟩).result = .ok 2 := by
  have h := (getRemoteResumeIndex_spec sampleUpload ⟨308, some "bytes=0-524287"⟩
      (by decide)).2.2.1 rfl "bytes=0-524287" 524287 rfl (by decide)
  simpa [sampleUpload] using h

/-- C5: a call made while paused registers its waiter and suspends before
touching the accumulator or the transport, and stays unresolved; a single
`unpause` releases every pending waiter exactly once (in list order) and
empties the list, so queued calls all proceed; `pause` twice is the same
state as `pause` once and touches no waiter, and `unpause` with no pending
waiters only flips the flag. -/
theorem pause_gate_spec (u : Upload) (w1 w2 index : Nat) (chunk : List Nat)
    (tr : Nat → Response) :
    (u.paused = true →
      uploadChunkCall u w1 index chunk tr
        = { state := { u with unpauseHandlers := u.unpauseHandlers ++ [w1] }
            log := []
            resolved := none })
    ∧ (unpause u).2 = u.unpauseHandlers
    ∧ (unpause u).1.unpauseHandlers = []
    ∧ (unpause u).1.paused = false
    ∧ pause (pause u) = pause u
    ∧ (pause u).unpauseHandlers = u.unpauseHandlers
    ∧ (u.unpauseHandlers = [] → unpause u = ({ u with paused := false }, []))
    ∧ (u.paused = true →
        (unpause ((uploadChunkCall ((uploadChunkCall u w1 index chunk tr).state)
            w2 index chunk tr).state)).2
          = u.unpauseHandlers ++ [w1, w2]) := by
  refine ⟨?_, rfl, rfl, rfl, rfl, rfl, ?_, ?_⟩
  · intro hp
    simp [uploadChunkCall, hp]
  · intro h
    simp [unpause, h]
  · intro hp
    simp [uploadChunkCall, hp, unpause]

/-- Closed instance of `pause_gate_spec`: two calls queued on a paused
session stay pending and one `unpause` releases both. -/
theorem pause_gate_spec_witness :
    (uploadChunkCall (pause sampleUpload) 1 0 [7] (fun _ => ⟨200, none⟩)).resolved = none
    ∧ (unpause ((uploadChunkCall ((uploadChunkCall (pause sampleUpload) 1 0 [7]
        (fun _ => ⟨200, none⟩)).state) 2 0 [7] (fun _ => ⟨200, none⟩)).state)).2
      = [1, 2] := by
  have h := pause_gate_spec (pause sampleUpload) 1 2 0 [7] (fun _ => ⟨200, none⟩)
  refine ⟨?_, ?_⟩
  · rw [h.1 rfl]
  · have h2 := h.2.2.2.2.2.2.2 rfl
    simpa [sampleUpload, pause] using h2

/-- C8: `cancel` empties the persisted checksum store for the session's id
and leaves the pause flag, the waiter list, the checksum accumulator and
the configuration untouched. -/
theorem cancel_frame (u : Upload) :
    (cancel u).meta = []
    ∧ (cancel u).paused = u.paused
    ∧ (cancel u).unpauseHandlers = u.unpauseHandlers
    ∧ (cancel u).spark = u.spark
    ∧ (cancel u).opts = u.opts :=
  ⟨rfl, rfl, rfl, rfl, rfl⟩

/-- Arguments passing the spec's field name `backoffDelayMillis` with a
non-default value, alongside the minimal valid configuration. -/
def argsSpecDelay : Args :=
  { minimalArgs with backoffDelayMillis := some 7 }

/-- C9 counterexample: constructing with `backoffDelayMillis = 7` (and no
`backoffMillis`) still hands the retry policy a `minTimeout` of 1000 — the
key the spec names is spread into the options object but no line of the
source reads it; the base delay comes from `backoffMillis`. -/
theorem backoffDelayMillis_ignored :
    (buildUpload argsSpecDelay false).map
        (fun u => (uploadChunkRun u 0 [1] (fun _ => ⟨500, none⟩)).minTimeout)
      = .ok 1000
    ∧ (1000 : Nat) ≠ 7 :=
  ⟨rfl, by decide⟩

/-- The `{retries, minTimeout}` options of the retry wrapper always come
from `backoffRetryLimit` and `backoffMillis` (line 103). -/
theorem uploadChunkRun_retryOptions (u : Upload) (index : Nat) (chunk : List Nat)
    (tr : Nat → Response) :
    (uploadChunkRun u index chunk tr).minTimeout = u.opts.backoffMillis
    ∧ (uploadChunkRun u index chunk tr).retries = u.opts.backoffRetryLimit := by
  unfold uploadChunkRun
  rcases hr : retryRun u.opts.backoffRetryLimit
      (fun num => checkResponseStatus (tr num) u.opts.id u.opts.url [200, 201, 308])
    with ⟨n, rr⟩
  cases rr <;> exact ⟨rfl, rfl⟩

/-- Inversion of a successful construction: the instance is exactly the
record the constructor builds. -/
theorem buildUpload_ok (args : Args) (allow : Bool) (u : Upload)
    (h : buildUpload args allow = .ok u) :
    u = { paused := false
          unpauseHandlers := []
          spark := []
          opts :=
            { chunkSize := args.chunkSize.getD MIN_CHUNK_SIZE
              contentType := args.contentType.getD "text/plain"
              id := args.id.getD ""
              url := args.url.getD ""
              backoffMillis := args.backoffMillis.getD 1000
              backoffRetryLimit := args.backoffRetryLimit.getD 5 }
          meta := [] } := by
  simp only [buildUpload] at h
  split at h
  · cases h
  · split at h
    · cases h
    · split at h
      · cases h
      · injection h with h4
        exact h4.symm

/-- C9 amended: the configuration field that supplies the base retry delay
is named `backoffMillis` (not `backoffDelayMillis`); it defaults to 1000
and is passed to the retry policy as its minimum per-attempt delay, while
`backoffRetryLimit` defaults to 5 and is passed as the retry budget;
`backoffDelayMillis` influences neither construction nor the retry
options. -/
theorem backoff_config_spec (args : Args) (u : Upload)
    (h : buildUpload args false = .ok u) (index : Nat) (chunk : List Nat)
    (tr : Nat → Response) :
    u.opts.backoffMillis = args.backoffMillis.getD 1000
    ∧ u.opts.backoffRetryLimit = args.backoffRetryLimit.getD 5
    ∧ (uploadChunkRun u index chunk tr).minTimeout = u.opts.backoffMillis
    ∧ (uploadChunkRun u index chunk tr).retries = u.opts.backoffRetryLimit
    ∧ buildUpload { args with backoffDelayMillis := none } false = .ok u := by
  refine ⟨?_, ?_, (uploadChunkRun_retryOptions u index chunk tr).1,
    (uploadChunkRun_retryOptions u index chunk tr).2, h⟩
  all_goals rw [buildUpload_ok args false u h]

/-- The instance `buildUpload argsBackoff false` constructs. -/
def uploadBackoff : Upload :=
  { sampleUpload with
    opts := { sampleUpload.opts with backoffMillis := 250, backoffRetryLimit := 2 } }

/-- Arguments overriding `backoffMillis` and `backoffRetryLimit`. -/
def argsBackoff : Args :=
  { minimalArgs with backoffMillis := some 250, backoffRetryLimit := some 2 }

/-- Closed instance of `backoff_config_spec`: configured `backoffMillis`
250 and `backoffRetryLimit` 2 reach the retry wrapper unchanged. -/
theorem backoff_config_spec_witness :
    (uploadChunkRun uploadBackoff 0 [1] (fun _ => ⟨500, none⟩)).minTimeout = 250
    ∧ (uploadChunkRun uploadBackoff 0 [1] (fun _ => ⟨500, none⟩)).retries = 2 := by
  have h := backoff_config_spec argsBackoff uploadBackoff rfl 0 [1] (fun _ => ⟨500, none⟩)
  refine ⟨?_, ?_⟩
  · rw [h.2.2.1]
    rfl
  · rw [h.2.2.2.1]
    rfl

end Gcs
